import Mathlib

/-!
Shallow embedding of the mammot command framework core
(packages/core/src/decorators.ts and packages/core/src/mammot.ts).

Option kinds and config `type` values are strings, exactly as in the
source (the discord.js string union STRING, BOOLEAN, NUMBER, INTEGER,
ROLE, USER, CHANNEL, MENTIONABLE, ...). Fallible code returns
`Except String`, carrying the verbatim error message thrown by the
source. Reflection helpers (`getParamType`, `addOption`, `readCommand`
from reflection.ts, which is not among the sources) are abstracted:
the declared parameter type is an explicit argument, and `option`
returns the `OptionMetadata` record that `addOption` would append to
the Metadata Store.
-/

/--
The declared type of a handler parameter, as returned by the
reflection call `getParamType` (the design:paramtypes entry).
The switch in `option` compares it by identity against the
constructors `String`, `Boolean`, `Number`, `Role`, `User`,
`GuildMember`, so those are distinguished constructors here;
`guildChannel` is the `GuildChannel` class itself,
`guildChannelSubclass` is any proper subclass of it (for example
`TextChannel`), `otherClass` is any other constructor function, and
`nonFunction` is a value that is not a function (for example
`undefined` when no reflection metadata exists).
-/
inductive ParamType where
  | stringT
  | booleanT
  | numberT
  | roleT
  | userT
  | guildMemberT
  | guildChannel
  | guildChannelSubclass (name : String)
  | otherClass (name : String)
  | nonFunction
deriving DecidableEq

/--
Embedding of the JavaScript test `type instanceof GuildChannel.constructor`
(decorators.ts line 124). `GuildChannel` is a class, so
`GuildChannel.constructor` is the built-in `Function` constructor, and the
test evaluates to `type instanceof Function`: true for every constructor
function whatsoever, not only for guild-channel subclasses.
-/
def instanceOfGuildChannelConstructor : ParamType → Bool
  | .nonFunction => false
  | _ => true

/--
The option configuration (`Partial<OptionConfig>` in decorators.ts).
`type? = none` models an absent `type` key; `force` and `required`
default to `false` like absent booleans; `description?` stands for the
remaining pass-through config fields that the spread `{...config}`
copies unchanged.
-/
structure OptionConfig where
  type? : Option String := none
  force : Bool := false
  required : Bool := false
  description? : Option String := none
deriving DecidableEq

/-- Structure `OptionMetadata` from decorators.ts: the record `addOption` stores. -/
structure OptionMetadata where
  name : String
  index : Nat
  config : OptionConfig
deriving DecidableEq

/-- The decorated target class: whether it extends `Command`, and its
constructor name (used in the error message). -/
structure CommandTarget where
  isCommand : Bool
  ctorName : String
deriving DecidableEq

/-- Helper `isNumOrInt` from decorators.ts. -/
def isNumOrInt (val : String) : Bool :=
  val = "NUMBER" || val = "INTEGER"

/--
The `switch (true)` block of `option` (decorators.ts lines 85-132):
maps the declared parameter type and the explicit config to the chosen
option kind, or throws. Cases in source order; first match wins.
-/
def inferKind (type : ParamType) (config : OptionConfig) : Except String String :=
  if type = .stringT then .ok "STRING"
  else if type = .booleanT then .ok "BOOLEAN"
  else if type = .numberT then
    match config.type? with
    | none => .error "You must specify a type for numbers in the config!"
    | some t =>
      if isNumOrInt t then .ok t
      else .error ("Number type must be either NUMBER or INTEGER. Received " ++ t)
  else if type = .roleT then .ok "ROLE"
  else if type = .userT ∨ type = .guildMemberT then .ok "USER"
  else if instanceOfGuildChannelConstructor type then .ok "CHANNEL"
  else .error "Unsupported data type."

/--
The `option` decorator body (decorators.ts lines 64-149), applied to a
parameter: validates the attachment point, infers the kind, performs
the mismatch check, and returns the `OptionMetadata` record passed to
`addOption` (with `type` overwritten by the chosen kind).
-/
def option (name : String) (config : OptionConfig) (target : CommandTarget)
    (property : String) (index : Nat) (paramType : ParamType) :
    Except String OptionMetadata :=
  if property ≠ "run" then
    .error ("The @option() decorator can only be used on the .run method. You used it on "
      ++ property)
  else if ¬ target.isCommand then
    .error ("You can only use @option() on a class extending Command! You used "
      ++ target.ctorName)
  else
    match inferKind paramType config with
    | .error e => .error e
    | .ok chosenType =>
      match config.type? with
      | some t =>
        if t ≠ chosenType ∧ config.force = false then
          .error ("Type mismatch. Found " ++ t ++ " in the config, but inferred "
            ++ chosenType ++ "! Enable force mode in if this was a mistake.")
        else
          .ok ⟨name, index, { config with type? := some chosenType }⟩
      | none =>
        .ok ⟨name, index, { config with type? := some chosenType }⟩

/--
The `forced` wrapper (decorators.ts lines 44-52): calls `option` with
`force: true` spread into the config.
-/
def forced (name : String) (config : OptionConfig) (target : CommandTarget)
    (property : String) (index : Nat) (paramType : ParamType) :
    Except String OptionMetadata :=
  option name { config with force := true } target property index paramType

/--
The outcome of `await command.run(interaction, ...)` for the dispatched
event (mammot.ts line 126): it either completes, throws a `MammotError`
carrying a message, or throws some other error.
-/
inductive RunResult where
  | ok
  | mammotError (message : String)
  | otherError (message : String)
deriving DecidableEq

/--
Structure `ParsedCommand` from mammot.ts: one registry entry. The `command` field
holds the handler instance; here it is represented by the outcome its
`run` method produces for the event under consideration.
-/
structure ParsedCommand where
  name : String
  description : String
  command : RunResult
  options : List OptionMetadata
deriving DecidableEq

/--
The map `Mammot.commands`, a JavaScript `Map<string, ParsedCommand>`: an
insertion-ordered association list with unique keys.
-/
abbrev RegistryMap := List (String × ParsedCommand)

/--
JavaScript `Map.prototype.set`: replace the value in place when the key
exists (keeping its insertion position), otherwise append at the end.
-/
def mapSet (m : RegistryMap) (k : String) (v : ParsedCommand) : RegistryMap :=
  match m with
  | [] => [(k, v)]
  | p :: rest => if p.1 = k then (k, v) :: rest else p :: mapSet rest k v

/-- JavaScript `Map.prototype.get`. -/
def mapGet (m : RegistryMap) (k : String) : Option ParsedCommand :=
  match m with
  | [] => none
  | p :: rest => if p.1 = k then some p.2 else mapGet rest k

/--
Method `Mammot.addCommands` (mammot.ts lines 72-91): for each command class it
constructs an instance, reads its metadata (`readCommand`, abstracted
here into the `ParsedCommand` argument), and does
`this.commands.set(name, {description, name, options, command})`. It
never throws and returns `this`.
-/
def addCommands (m : RegistryMap) (cmds : List ParsedCommand) : RegistryMap :=
  cmds.foldl (fun acc c => mapSet acc c.name c) m

/--
One flattened option in the schema-sync payload,
`{...option.config, name: option.name}` (mammot.ts lines 100-103): all
config fields (with `type` already set to the chosen kind) plus the
option name. The `index` field is not part of the payload.
-/
structure FlattenedOption where
  type? : Option String
  force : Bool
  required : Bool
  description? : Option String
  name : String
deriving DecidableEq

def flattenOption (o : OptionMetadata) : FlattenedOption :=
  ⟨o.config.type?, o.config.force, o.config.required, o.config.description?, o.name⟩

/-- One `{options, name, description}` entry of the list submitted to
`this.client.application.commands.set` (mammot.ts lines 105-109). -/
structure MappedCommand where
  options : List FlattenedOption
  name : String
  description : String
deriving DecidableEq

/--
The per-command body of the `mapped` computation in `Mammot.login`
(mammot.ts lines 99-110): `command.options.reverse()` followed by the
flattening map. `Array.prototype.reverse` returns the same, mutated,
array, so the submitted options are the reverse of the stored sequence.
-/
def mapCommandForSync (c : ParsedCommand) : MappedCommand :=
  ⟨(c.options.reverse).map flattenOption, c.name, c.description⟩

/-- The full `mapped` list computed at the start of `Mammot.login`. -/
def loginMapped (m : RegistryMap) : List MappedCommand :=
  m.map (fun p => mapCommandForSync p.2)

/--
The registry state after `Mammot.login` has computed `mapped`:
`command.options.reverse()` mutates each stored array in place, so the
`this.commands` map that the interactionCreate handler later reads now
holds the reversed sequences.
-/
def loginNewState (m : RegistryMap) : RegistryMap :=
  m.map (fun p => (p.1, { p.2 with options := p.2.options.reverse }))

/-- An incoming interaction event as seen by the interactionCreate
handler (mammot.ts lines 112-150). -/
structure Interaction where
  isCommand : Bool
  commandName : String
deriving DecidableEq

/-- The `interaction.reply({ephemeral: true, content: message})` payload. -/
structure Reply where
  ephemeral : Bool
  content : String
deriving DecidableEq

/--
The observable outcome of one dispatch: whether `command.run` was
invoked, the reply payload if any, and the `console.warn` diagnostic
records.
-/
structure DispatchOutcome where
  handlerInvoked : Bool
  reply : Option Reply
  diagnostics : List String
deriving DecidableEq

/--
The interactionCreate handler of `Mammot.login` (mammot.ts lines
112-150): filter non-command interactions, look up the registry, run
the handler, and translate a thrown error into an ephemeral reply. The
`else if (this.fallbackError)` test follows JavaScript truthiness, so
an absent fallback and an empty-string fallback both fall through to
the generic message. Dispatch itself never throws.
-/
def dispatch (commands : RegistryMap) (fallbackError : Option String)
    (interaction : Interaction) : DispatchOutcome :=
  if ¬ interaction.isCommand then ⟨false, none, []⟩
  else
    match mapGet commands interaction.commandName with
    | none => ⟨false, none, []⟩
    | some found =>
      match found.command with
      | .ok => ⟨true, none, []⟩
      | .mammotError msg => ⟨true, some ⟨true, msg⟩, []⟩
      | .otherError err =>
        let message :=
          match fallbackError with
          | some s => if s ≠ "" then s else "Something went wrong."
          | none => "Something went wrong."
        ⟨true, some ⟨true, message⟩, [err]⟩

/--
Modelled from the spec: the collection order of the Annotation Layer.
The reflection module (reflection.ts, with `addOption` and
`readCommand`) is not among the sources; spec section 4.3 states that
parameter annotations are observed in the reverse of declaration order
(rightmost parameter first) while each `index` is captured accurately,
so the Metadata Store holds the reverse of the declaration-order
sequence.
-/
def collectOptions (declared : List OptionMetadata) : List OptionMetadata :=
  declared.reverse

/-- The keys of the registry are pairwise distinct, as they are for a
JavaScript Map. -/
def uniqueKeys (m : RegistryMap) : Prop :=
  List.Pairwise (fun a b => a.1 ≠ b.1) m

/-- Number of registry entries stored under a given key. -/
def countKey (m : RegistryMap) (k : String) : Nat :=
  (m.filter (fun p => p.1 = k)).length

/-! Helper lemmas about the JavaScript Map embedding. -/

theorem mapGet_mapSet_self (m : RegistryMap) (k : String) (v : ParsedCommand) :
    mapGet (mapSet m k v) k = some v := by
  induction m with
  | nil => simp [mapSet, mapGet]
  | cons p rest ih =>
    by_cases h : p.1 = k
    · simp [mapSet, mapGet, h]
    · simp [mapSet, mapGet, h, ih]

theorem fst_of_mem_mapSet (m : RegistryMap) (k : String) (v : ParsedCommand)
    (b : String × ParsedCommand) (hb : b ∈ mapSet m k v) : b.1 = k ∨ b ∈ m := by
  induction m with
  | nil =>
    simp [mapSet] at hb
    simp [hb]
  | cons p rest ih =>
    by_cases h : p.1 = k
    · simp [mapSet, h] at hb
      rcases hb with hb | hb
      · simp [hb]
      · exact Or.inr (List.mem_cons_of_mem _ hb)
    · simp [mapSet, h] at hb
      rcases hb with hb | hb
      · exact Or.inr (by simp [hb])
      · rcases ih hb with h' | h'
        · exact Or.inl h'
        · exact Or.inr (List.mem_cons_of_mem _ h')

theorem uniqueKeys_mapSet (m : RegistryMap) (k : String) (v : ParsedCommand)
    (h : uniqueKeys m) : uniqueKeys (mapSet m k v) := by
  unfold uniqueKeys at h ⊢
  induction m with
  | nil => simp [mapSet]
  | cons p rest ih =>
    rcases h with _ | ⟨hp, hrest⟩
    by_cases hk : p.1 = k
    · simp only [mapSet, if_pos hk]
      refine List.Pairwise.cons ?_ hrest
      intro b hb
      rw [← hk]
      exact hp b hb
    · simp only [mapSet, if_neg hk]
      refine List.Pairwise.cons ?_ (ih hrest)
      intro b hb
      rcases fst_of_mem_mapSet rest k v b hb with h' | h'
      · rw [h']
        exact hk
      · exact hp b h'

theorem countKey_mapSet_self (m : RegistryMap) (k : String) (v : ParsedCommand)
    (h : uniqueKeys m) : countKey (mapSet m k v) k = 1 := by
  induction m with
  | nil => simp [mapSet, countKey]
  | cons p rest ih =>
    rcases h with _ | ⟨hp, hrest⟩
    by_cases hk : p.1 = k
    · have hzero : rest.filter (fun p => p.1 = k) = [] := by
        rw [List.filter_eq_nil_iff]
        intro b hb
        simp only [decide_eq_true_eq]
        rw [← hk]
        exact (hp b hb).symm
      simp [mapSet, countKey, hk, hzero]
    · simpa [mapSet, countKey, hk] using ih hrest

theorem mapSet_mapSet_same (m : RegistryMap) (k : String) (v w : ParsedCommand) :
    mapSet (mapSet m k v) k w = mapSet m k w := by
  induction m with
  | nil => simp [mapSet]
  | cons p rest ih =>
    by_cases h : p.1 = k
    · simp [mapSet, h]
    · simp [mapSet, h, ih]


/-! Claim theorems. -/

/--
C1: for every option attachment where an explicit config.type is
supplied and differs from the inferred kind: without force, the
attachment fails with the fatal type-mismatch error; with force, it
succeeds and the recorded OptionDescriptor carries the inferred kind,
never the explicit config.type.
-/
theorem option_mismatch_force (name : String) (config : OptionConfig)
    (target : CommandTarget) (index : Nat) (pt : ParamType) (K L : String)
    (ht : target.isCommand = true)
    (hinf : inferKind pt config = .ok K)
    (hct : config.type? = some L)
    (hne : L ≠ K) :
    (config.force = false →
      option name config target "run" index pt =
        .error ("Type mismatch. Found " ++ L ++ " in the config, but inferred "
          ++ K ++ "! Enable force mode in if this was a mistake.")) ∧
    (config.force = true →
      option name config target "run" index pt =
        .ok ⟨name, index, { config with type? := some K }⟩ ∧
      some K ≠ config.type?) := by
  constructor
  · intro hf
    simp [option, ht, hinf, hct, hne, hf]
  · intro hf
    refine ⟨?_, ?_⟩
    · simp [option, ht, hinf, hct, hf]
    · simp [hct]
      exact fun h => hne h.symm

theorem option_mismatch_force_witness :
    (option "target" ⟨some "USER", false, false, none⟩ ⟨true, "Ping"⟩ "run" 0 .stringT =
      .error "Type mismatch. Found USER in the config, but inferred STRING! Enable force mode in if this was a mistake.") ∧
    (option "target" ⟨some "USER", true, false, none⟩ ⟨true, "Ping"⟩ "run" 0 .stringT =
      .ok ⟨"target", 0, ⟨some "STRING", true, false, none⟩⟩) :=
  ⟨(option_mismatch_force "target" ⟨some "USER", false, false, none⟩ ⟨true, "Ping"⟩ 0
      .stringT "STRING" "USER" rfl rfl rfl (by decide)).1 rfl,
   ((option_mismatch_force "target" ⟨some "USER", true, false, none⟩ ⟨true, "Ping"⟩ 0
      .stringT "STRING" "USER" rfl rfl rfl (by decide)).2 rfl).1⟩

/--
C3 (evaluation at the failing input): a declared parameter type that is
a plain class outside the supported set, for example the built-in Date
class, does not fail with the "Unsupported data type." error; the
catchall case `type instanceof GuildChannel.constructor` evaluates as
`type instanceof Function`, matches every constructor function, and
records the kind CHANNEL.
-/
theorem option_nonchannel_class_infers_channel :
    option "when" {} ⟨true, "Reminder"⟩ "run" 0 (.otherClass "Date") =
      .ok ⟨"when", 0, { type? := some "CHANNEL" }⟩ := by
  rfl

/--
C4: for a numeric-declared parameter, omitting config.type fails with
the missing-subtype configuration error; a config.type outside
NUMBER/INTEGER fails with the configuration error naming the value;
NUMBER or INTEGER succeeds and records exactly that kind.
-/
theorem option_numeric_validation (name : String) (config : OptionConfig)
    (target : CommandTarget) (index : Nat)
    (ht : target.isCommand = true) :
    (config.type? = none →
      option name config target "run" index .numberT =
        .error "You must specify a type for numbers in the config!") ∧
    (∀ t, config.type? = some t → isNumOrInt t = false →
      option name config target "run" index .numberT =
        .error ("Number type must be either NUMBER or INTEGER. Received " ++ t)) ∧
    (∀ t, config.type? = some t → isNumOrInt t = true →
      option name config target "run" index .numberT =
        .ok ⟨name, index, { config with type? := some t }⟩) := by
  refine ⟨?_, ?_, ?_⟩
  · intro hnone
    simp [option, ht, inferKind, hnone]
  · intro t hsome hbad
    simp [option, ht, inferKind, hsome, hbad]
  · intro t hsome hgood
    simp [option, ht, inferKind, hsome, hgood]

theorem option_numeric_validation_witness :
    (option "amount" ⟨none, false, false, none⟩ ⟨true, "Pay"⟩ "run" 1 .numberT =
      .error "You must specify a type for numbers in the config!") ∧
    (option "amount" ⟨some "STRING", false, false, none⟩ ⟨true, "Pay"⟩ "run" 1 .numberT =
      .error "Number type must be either NUMBER or INTEGER. Received STRING") ∧
    (option "amount" ⟨some "INTEGER", false, false, none⟩ ⟨true, "Pay"⟩ "run" 1 .numberT =
      .ok ⟨"amount", 1, ⟨some "INTEGER", false, false, none⟩⟩) :=
  ⟨(option_numeric_validation "amount" ⟨none, false, false, none⟩ ⟨true, "Pay"⟩ 1 rfl).1 rfl,
   (option_numeric_validation "amount" ⟨some "STRING", false, false, none⟩ ⟨true, "Pay"⟩ 1
      rfl).2.1 "STRING" rfl rfl,
   (option_numeric_validation "amount" ⟨some "INTEGER", false, false, none⟩ ⟨true, "Pay"⟩ 1
      rfl).2.2 "INTEGER" rfl rfl⟩

/--
C10: force mode does not bypass numeric validation. The forced wrapper
is option with force spread to true, and on a numeric-declared
parameter it still fails with the missing-subtype error when
config.type is absent and with the invalid-subtype error when
config.type is outside NUMBER/INTEGER.
-/
theorem forced_numeric_still_validates (name : String) (config : OptionConfig)
    (target : CommandTarget) (index : Nat) (pt : ParamType)
    (ht : target.isCommand = true) :
    (forced name config target "run" index pt =
      option name { config with force := true } target "run" index pt) ∧
    (config.type? = none →
      forced name config target "run" index .numberT =
        .error "You must specify a type for numbers in the config!") ∧
    (∀ t, config.type? = some t → isNumOrInt t = false →
      forced name config target "run" index .numberT =
        .error ("Number type must be either NUMBER or INTEGER. Received " ++ t)) := by
  refine ⟨rfl, ?_, ?_⟩
  · intro hnone
    simp [forced, option, ht, inferKind, hnone]
  · intro t hsome hbad
    simp [forced, option, ht, inferKind, hsome, hbad]

theorem forced_numeric_still_validates_witness :
    (forced "amount" ⟨none, false, false, none⟩ ⟨true, "Pay"⟩ "run" 0 .numberT =
      .error "You must specify a type for numbers in the config!") ∧
    (forced "amount" ⟨some "BOOLEAN", false, false, none⟩ ⟨true, "Pay"⟩ "run" 0 .numberT =
      .error "Number type must be either NUMBER or INTEGER. Received BOOLEAN") :=
  ⟨(forced_numeric_still_validates "amount" ⟨none, false, false, none⟩ ⟨true, "Pay"⟩ 0
      .numberT rfl).2.1 rfl,
   (forced_numeric_still_validates "amount" ⟨some "BOOLEAN", false, false, none⟩ ⟨true, "Pay"⟩ 0
      .numberT rfl).2.2 "BOOLEAN" rfl rfl⟩

/--
C5: for every dispatched event whose handler throws a MammotError, the
engine replies ephemerally with exactly that error message, and writes
nothing to the diagnostic channel.
-/
theorem dispatch_mammot_error_reply (m : RegistryMap) (fb : Option String)
    (i : Interaction) (found : ParsedCommand) (msg : String)
    (hc : i.isCommand = true)
    (hget : mapGet m i.commandName = some found)
    (hrun : found.command = .mammotError msg) :
    dispatch m fb i = ⟨true, some ⟨true, msg⟩, []⟩ := by
  simp [dispatch, hc, hget, hrun]

theorem dispatch_mammot_error_reply_witness :
    dispatch [("ban", ⟨"ban", "bans", .mammotError "Not enough permissions", []⟩)]
        none ⟨true, "ban"⟩ =
      ⟨true, some ⟨true, "Not enough permissions"⟩, []⟩ :=
  dispatch_mammot_error_reply
    [("ban", ⟨"ban", "bans", .mammotError "Not enough permissions", []⟩)]
    none ⟨true, "ban"⟩ ⟨"ban", "bans", .mammotError "Not enough permissions", []⟩
    "Not enough permissions" rfl rfl rfl

/--
C6 (counterexample to the claim as stated): a configured fallback
message that is the empty string is supplied but is not used as the
reply; the JavaScript truthiness test on fallbackError makes the
dispatch engine fall through to the generic constant message.
-/
theorem dispatch_empty_fallback_not_used :
    dispatch [("ping", ⟨"ping", "pong", .otherError "boom", []⟩)] (some "")
        ⟨true, "ping"⟩ =
      ⟨true, some ⟨true, "Something went wrong."⟩, ["boom"]⟩ ∧
    "Something went wrong." ≠ "" := by
  constructor
  · rfl
  · decide

/--
C6 (amended): for every dispatched event whose handler throws an error
that is not a MammotError, the ephemeral reply is the configured
fallback message when a non-empty one was supplied (an absent or
empty-string fallback is falsy and yields the generic constant
message), the raw error is written to the diagnostic channel, and the
reply content is computed from the fallback configuration alone, never
from the raw error.
-/
theorem dispatch_unrecognized_error_reply (m : RegistryMap) (fb : Option String)
    (i : Interaction) (found : ParsedCommand) (err : String)
    (hc : i.isCommand = true)
    (hget : mapGet m i.commandName = some found)
    (hrun : found.command = .otherError err) :
    dispatch m fb i =
      ⟨true,
       some ⟨true,
         match fb with
         | some s => if s ≠ "" then s else "Something went wrong."
         | none => "Something went wrong."⟩,
       [err]⟩ := by
  simp [dispatch, hc, hget, hrun]

theorem dispatch_unrecognized_error_reply_witness :
    dispatch [("ping", ⟨"ping", "pong", .otherError "boom", []⟩)] (some "Oops!")
        ⟨true, "ping"⟩ =
      ⟨true, some ⟨true, "Oops!"⟩, ["boom"]⟩ :=
  dispatch_unrecognized_error_reply
    [("ping", ⟨"ping", "pong", .otherError "boom", []⟩)] (some "Oops!")
    ⟨true, "ping"⟩ ⟨"ping", "pong", .otherError "boom", []⟩ "boom" rfl rfl rfl

/--
C7: for every incoming command interaction whose commandName is not a
key of the registry, dispatch is a no-op: the handler is not invoked,
no reply is sent, and nothing is written to diagnostics (dispatch is a
total function, so no error is raised either).
-/
theorem dispatch_unknown_command_noop (m : RegistryMap) (fb : Option String)
    (i : Interaction)
    (hc : i.isCommand = true)
    (hget : mapGet m i.commandName = none) :
    dispatch m fb i = ⟨false, none, []⟩ := by
  simp [dispatch, hc, hget]

theorem dispatch_unknown_command_noop_witness :
    dispatch [("ping", ⟨"ping", "pong", .ok, []⟩)] none ⟨true, "foreign"⟩ =
      ⟨false, none, []⟩ :=
  dispatch_unknown_command_noop [("ping", ⟨"ping", "pong", .ok, []⟩)] none
    ⟨true, "foreign"⟩ rfl rfl

/--
C8: each command name maps to exactly one registry entry; registering a
class whose name equals an already-registered name replaces the prior
entry with the later descriptor, last write wins, and addCommands is a
total function so no error is raised.
-/
theorem addCommands_last_write_wins (m : RegistryMap) (c₁ c₂ : ParsedCommand)
    (hname : c₁.name = c₂.name) (hu : uniqueKeys m) :
    addCommands m [c₁, c₂] = mapSet m c₂.name c₂ ∧
    mapGet (addCommands m [c₁, c₂]) c₂.name = some c₂ ∧
    countKey (addCommands m [c₁, c₂]) c₂.name = 1 ∧
    uniqueKeys (addCommands m [c₁, c₂]) := by
  have hfold : addCommands m [c₁, c₂] = mapSet (mapSet m c₁.name c₁) c₂.name c₂ := rfl
  have heq : addCommands m [c₁, c₂] = mapSet m c₂.name c₂ := by
    rw [hfold, hname, mapSet_mapSet_same]
  refine ⟨heq, ?_, ?_, ?_⟩
  · rw [heq]
    exact mapGet_mapSet_self m c₂.name c₂
  · rw [heq]
    exact countKey_mapSet_self m c₂.name c₂ hu
  · rw [heq]
    exact uniqueKeys_mapSet m c₂.name c₂ hu

theorem addCommands_last_write_wins_witness :
    mapGet (addCommands [] [⟨"ping", "first", .ok, []⟩, ⟨"ping", "second", .ok, []⟩])
        "ping" =
      some ⟨"ping", "second", .ok, []⟩ :=
  (addCommands_last_write_wins [] ⟨"ping", "first", .ok, []⟩
    ⟨"ping", "second", .ok, []⟩ rfl (by simp [uniqueKeys])).2.1

/--
C9: login mutates the registry in place: every entry of the commands
map afterwards holds the reverse of the options sequence addCommands
stored, the dispatch path reads these reversed arrays through the same
map, and a second login reverses them back to the original state.
-/
theorem login_reverses_registry_in_place (m : RegistryMap) :
    (∀ k, mapGet (loginNewState m) k =
      (mapGet m k).map (fun c => { c with options := c.options.reverse })) ∧
    loginNewState (loginNewState m) = m := by
  constructor
  · intro k
    induction m with
    | nil => simp [loginNewState, mapGet]
    | cons p rest ih =>
      by_cases h : p.1 = k
      · simp [loginNewState, mapGet, h]
      · simpa [loginNewState, mapGet, h] using ih
  · induction m with
    | nil => rfl
    | cons p rest ih =>
      simp only [loginNewState, List.map_cons] at ih ⊢
      rw [ih]
      simp

/--
C2: for every registered command, the list computed at the schema-sync
step consists of entries holding name, description and the options
flattened to the config fields plus the name; the flattened options are
the reverse of the collected Metadata Store sequence, and when the
store holds the reverse of an ascending-index declaration sequence (the
collection order stated in spec section 4.3), the submitted options are
exactly the declaration sequence, in ascending index order.
-/
theorem login_sync_options_ascending (m : RegistryMap) (k : String)
    (c : ParsedCommand) (declared : List OptionMetadata)
    (hmem : (k, c) ∈ m)
    (hst : c.options = collectOptions declared)
    (hasc : List.Chain' (fun a b => a.index < b.index) declared) :
    mapCommandForSync c ∈ loginMapped m ∧
    mapCommandForSync c =
      ⟨(c.options.reverse).map flattenOption, c.name, c.description⟩ ∧
    c.options.reverse = declared ∧
    (mapCommandForSync c).options = declared.map flattenOption ∧
    List.Chain' (fun a b => a.index < b.index) (c.options.reverse) := by
  have hrev : c.options.reverse = declared := by
    rw [hst]
    simp [collectOptions]
  refine ⟨?_, rfl, hrev, ?_, ?_⟩
  · exact List.mem_map.mpr ⟨(k, c), hmem, rfl⟩
  · simp [mapCommandForSync, hrev]
  · rw [hrev]
    exact hasc

theorem login_sync_options_ascending_witness :
    (mapCommandForSync ⟨"ping", "pong", .ok,
        [⟨"b", 1, ⟨some "BOOLEAN", false, false, none⟩⟩,
         ⟨"a", 0, ⟨some "STRING", false, false, none⟩⟩]⟩).options =
      [⟨some "STRING", false, false, none, "a"⟩,
       ⟨some "BOOLEAN", false, false, none, "b"⟩] :=
  (login_sync_options_ascending
    [("ping", ⟨"ping", "pong", .ok,
        [⟨"b", 1, ⟨some "BOOLEAN", false, false, none⟩⟩,
         ⟨"a", 0, ⟨some "STRING", false, false, none⟩⟩]⟩)]
    "ping"
    ⟨"ping", "pong", .ok,
        [⟨"b", 1, ⟨some "BOOLEAN", false, false, none⟩⟩,
         ⟨"a", 0, ⟨some "STRING", false, false, none⟩⟩]⟩
    [⟨"a", 0, ⟨some "STRING", false, false, none⟩⟩,
     ⟨"b", 1, ⟨some "BOOLEAN", false, false, none⟩⟩]
    (by simp) rfl (by simp [List.chain'_cons])).2.2.2.1
